import Mathlib

/-!
Verification of the GoDB Go SDK's fluent query/condition builder
(`main.go` of `GoDB_SDK_GO`), shallowly embedded in Lean.

Strings are modelled by Lean `String` (a wrapper around `List Char`),
Go `int` by `Int`, Go maps/slices by association lists / lists, and the
gRPC transport by the list of requests a terminal `Exec` call dispatches.
-/

namespace GoDB

/-- A scalar value passed to a condition setter: Go's `interface{}`
restricted to the cases the SDK distinguishes — `string` (quoted and
escaped) versus everything else (rendered by `%v`; integers here). -/
inductive Value where
  | str (s : String)
  | int (n : Int)
deriving DecidableEq, Repr

/-- Decimal digit characters, most significant first, with explicit fuel
(each step divides by 10, so `n + 1` units of fuel always suffice). -/
def natToDigitsAux (fuel n : Nat) : List Char :=
  match fuel with
  | 0 => []
  | fuel + 1 =>
    if n < 10 then [Char.ofNat (48 + n)]
    else natToDigitsAux fuel (n / 10) ++ [Char.ofNat (48 + n % 10)]

/-- Decimal digit characters of `n`, most significant first
(the semantics of Go's `strconv.Itoa` on a non-negative number). -/
def natToDigits (n : Nat) : List Char :=
  natToDigitsAux (n + 1) n

/-- Go's `strconv.Itoa` / `fmt.Sprintf "%v"` rendering of an `int`:
canonical decimal form, minus sign for negatives. -/
def itoa (i : Int) : String :=
  if i < 0 then "-" ++ String.mk (natToDigits i.natAbs)
  else String.mk (natToDigits i.toNat)

/-- `strings.ReplaceAll v "'" "''"`: double every single-quote character. -/
def escapeQuotes (v : String) : String :=
  String.mk (v.data.flatMap fun c => if c = '\'' then ['\'', '\''] else [c])

/-- Naive unescaping at the character level: collapse each doubled
single quote back to one. -/
def undouble : List Char → List Char
  | [] => []
  | '\'' :: '\'' :: rest => '\'' :: undouble rest
  | c :: rest => c :: undouble rest

/-- Naive unescaping of a quote-escaped string. -/
def unescapeQuotes (v : String) : String :=
  String.mk (undouble v.data)

/-- `formatCondition` from `main.go`: a text value is escaped and wrapped
in single quotes, any other value is rendered unquoted by `%v`. -/
def formatCondition (field operator : String) (value : Value) : String :=
  match value with
  | .str v => field ++ " " ++ operator ++ " '" ++ escapeQuotes v ++ "'"
  | .int n => field ++ " " ++ operator ++ " " ++ itoa n

/-- The shared `addCondition` helper of `QueryBuilder` and
`UpdateRecordBuilder`: AND-append onto a non-empty accumulated string,
otherwise start with the fragment. -/
def addCondition (condition cond : String) : String :=
  if condition ≠ "" then condition ++ " AND " ++ cond else cond

/-- Go's `strings.Join sep`: empty for `[]`, otherwise a left fold
inserting the separator between elements. -/
def joinSep (sep : String) : List String → String
  | [] => ""
  | x :: xs => xs.foldl (fun acc y => acc ++ sep ++ y) x

/-- The client state the builders read: the stored connection string
(`GoDBClient.connectionString`; the transport handle and `ctx` carry no
data the builders' payload construction depends on). -/
structure GoDBClient where
  connectionString : String
deriving DecidableEq, Repr

/-- Outcome of a terminal `Exec` call: either a local pre-dispatch
validation error (Go `fmt.Errorf` before any gRPC call), or the dispatch
of exactly one request to the transport. -/
inductive ExecAction (Req : Type) where
  | validationError (msg : String)
  | dispatch (req : Req)
deriving DecidableEq, Repr

/-- The list of requests an `ExecAction` sends through the transport:
none on a validation error, exactly the one dispatched request otherwise. -/
def ExecAction.transportCalls : ExecAction Req → List Req
  | .validationError _ => []
  | .dispatch req => [req]

/-- `true` iff the `Exec` call stopped with a local validation error. -/
def ExecAction.isValidationError : ExecAction Req → Bool
  | .validationError _ => true
  | .dispatch _ => false

/-- `proto.InsertRecordRequest` (the fields `InsertBuilder.Exec` fills;
the Go map is an association list here). -/
structure InsertRecordRequest where
  tableName : String
  record : List (String × String)
  connectionString : String
deriving DecidableEq, Repr

/-- `InsertBuilder` from `main.go`. -/
structure InsertBuilder where
  client : GoDBClient
  tableName : String := ""
  record : List (String × String) := []
deriving DecidableEq, Repr

/-- `GoDBClient.Insert`: a fresh builder with an empty record map. -/
def GoDBClient.Insert (client : GoDBClient) : InsertBuilder :=
  { client := client, record := [] }

/-- `InsertBuilder.Table`: sets the table name. -/
def InsertBuilder.Table (ib : InsertBuilder) (table : String) : InsertBuilder :=
  { ib with tableName := table }

/-- `InsertBuilder.Values`: replaces the whole record map. -/
def InsertBuilder.Values (ib : InsertBuilder) (record : List (String × String)) :
    InsertBuilder :=
  { ib with record := record }

/-- `InsertBuilder.Exec`: validation (empty table name, then empty record),
then construction and dispatch of one `InsertRecord` request. -/
def InsertBuilder.Exec (ib : InsertBuilder) : ExecAction InsertRecordRequest :=
  if ib.tableName = "" then .validationError "table name is required"
  else if ib.record.isEmpty then .validationError "no record provided"
  else .dispatch
    { tableName := ib.tableName
      record := ib.record
      connectionString := ib.client.connectionString }

/-- `proto.Record`: one record of an `InsertMultipleRecords` batch. -/
structure Record where
  data : List (String × String)
deriving DecidableEq, Repr

/-- `InsertMultipleBuilder` from `main.go`. -/
structure InsertMultipleBuilder where
  client : GoDBClient
  tableName : String := ""
  records : List Record := []
deriving DecidableEq, Repr

/-- `GoDBClient.InsertMultiple`: a fresh builder with an empty batch. -/
def GoDBClient.InsertMultiple (client : GoDBClient) : InsertMultipleBuilder :=
  { client := client, records := [] }

/-- `InsertMultipleBuilder.Table`: sets the table name. -/
def InsertMultipleBuilder.Table (imb : InsertMultipleBuilder) (table : String) :
    InsertMultipleBuilder :=
  { imb with tableName := table }

/-- `InsertMultipleBuilder.Records`: the Go `for` loop appending
`&proto.Record{Data: rec}` to `imb.records` for each given map, in order. -/
def InsertMultipleBuilder.Records (imb : InsertMultipleBuilder)
    (records : List (List (String × String))) : InsertMultipleBuilder :=
  { imb with records := records.foldl (fun acc rec => acc ++ [⟨rec⟩]) imb.records }

/-- `UpdateRecordBuilder` from `main.go` (only the fields its condition
accumulation and `Exec` read). -/
structure UpdateRecordBuilder where
  client : GoDBClient
  tableName : String := ""
  updates : List (String × String) := []
  condition : String := ""
deriving DecidableEq, Repr

/-- `GoDBClient.UpdateRecord`: a fresh builder with an empty update map
and empty condition. -/
def GoDBClient.UpdateRecord (client : GoDBClient) : UpdateRecordBuilder :=
  { client := client }

/-- `UpdateRecordBuilder.Table`: sets the table name. -/
def UpdateRecordBuilder.Table (urb : UpdateRecordBuilder) (table : String) :
    UpdateRecordBuilder :=
  { urb with tableName := table }

/-- `UpdateRecordBuilder.Condition`: sets (overwrites) the free-form
WHERE condition. -/
def UpdateRecordBuilder.Condition (urb : UpdateRecordBuilder) (cond : String) :
    UpdateRecordBuilder :=
  { urb with condition := cond }

/-- `UpdateRecordBuilder.Equal`: formats `field = value` and AND-appends it. -/
def UpdateRecordBuilder.Equal (urb : UpdateRecordBuilder) (field : String)
    (value : Value) : UpdateRecordBuilder :=
  { urb with condition := addCondition urb.condition (formatCondition field "=" value) }

/-- `UpdateRecordBuilder.Greater`: formats `field > value` and AND-appends it. -/
def UpdateRecordBuilder.Greater (urb : UpdateRecordBuilder) (field : String)
    (value : Value) : UpdateRecordBuilder :=
  { urb with condition := addCondition urb.condition (formatCondition field ">" value) }

/-- `UpdateRecordBuilder.Less`: formats `field < value` and AND-appends it. -/
def UpdateRecordBuilder.Less (urb : UpdateRecordBuilder) (field : String)
    (value : Value) : UpdateRecordBuilder :=
  { urb with condition := addCondition urb.condition (formatCondition field "<" value) }

/-- `QueryBuilder` from `main.go`. -/
structure QueryBuilder where
  client : GoDBClient
  tableName : String := ""
  columns : String := ""
  condition : String := ""
  orderBy : String := ""
  limit : Int := 0
  offset : Int := 0
  cursor : String := ""
deriving DecidableEq, Repr

/-- `GoDBClient.Query`: a fresh builder, limit and offset zero. -/
def GoDBClient.Query (client : GoDBClient) : QueryBuilder :=
  { client := client, limit := 0, offset := 0 }

/-- `QueryBuilder.Table`: sets the table name. -/
def QueryBuilder.Table (qb : QueryBuilder) (table : String) : QueryBuilder :=
  { qb with tableName := table }

/-- `QueryBuilder.Columns`: sets the columns selector. -/
def QueryBuilder.Columns (qb : QueryBuilder) (cols : String) : QueryBuilder :=
  { qb with columns := cols }

/-- `QueryBuilder.Condition`: sets (overwrites) the free-form WHERE condition. -/
def QueryBuilder.Condition (qb : QueryBuilder) (cond : String) : QueryBuilder :=
  { qb with condition := cond }

/-- `QueryBuilder.Equal`: formats `field = value` and AND-appends it. -/
def QueryBuilder.Equal (qb : QueryBuilder) (field : String) (value : Value) :
    QueryBuilder :=
  { qb with condition := addCondition qb.condition (formatCondition field "=" value) }

/-- `QueryBuilder.Greater`: formats `field > value` and AND-appends it. -/
def QueryBuilder.Greater (qb : QueryBuilder) (field : String) (value : Value) :
    QueryBuilder :=
  { qb with condition := addCondition qb.condition (formatCondition field ">" value) }

/-- `QueryBuilder.Less`: formats `field < value` and AND-appends it. -/
def QueryBuilder.Less (qb : QueryBuilder) (field : String) (value : Value) :
    QueryBuilder :=
  { qb with condition := addCondition qb.condition (formatCondition field "<" value) }

/-- `QueryBuilder.LessEqual`: formats `field <= value` and AND-appends it. -/
def QueryBuilder.LessEqual (qb : QueryBuilder) (field : String) (value : Value) :
    QueryBuilder :=
  { qb with condition := addCondition qb.condition (formatCondition field "<=" value) }

/-- `QueryBuilder.Cursor`: sets the pagination cursor token. -/
def QueryBuilder.Cursor (qb : QueryBuilder) (cursor : String) : QueryBuilder :=
  { qb with cursor := cursor }

/-- `QueryBuilder.OrderBy`: sets the ORDER BY clause text. -/
def QueryBuilder.OrderBy (qb : QueryBuilder) (order : String) : QueryBuilder :=
  { qb with orderBy := order }

/-- `QueryBuilder.Limit`: sets the row limit. -/
def QueryBuilder.Limit (qb : QueryBuilder) (limit : Int) : QueryBuilder :=
  { qb with limit := limit }

/-- `QueryBuilder.Offset`: sets the row offset. -/
def QueryBuilder.Offset (qb : QueryBuilder) (offset : Int) : QueryBuilder :=
  { qb with offset := offset }

/-- The condition-assembly part of `QueryBuilder.Exec`: collect the
accumulated condition and the cursor fragment, `strings.Join` them with
`" AND "`, then append ORDER BY, LIMIT and OFFSET under their guards. -/
def QueryBuilder.finalCondition (qb : QueryBuilder) : String :=
  let conditions : List String :=
    (if qb.condition ≠ "" then [qb.condition] else []) ++
      (if qb.cursor ≠ "" then ["id > " ++ qb.cursor] else [])
  let fc := joinSep " AND " conditions
  let fc := if qb.orderBy ≠ "" then fc ++ " ORDER BY " ++ qb.orderBy else fc
  let fc := if qb.limit > 0 then fc ++ " LIMIT " ++ itoa qb.limit else fc
  if qb.offset > 0 then fc ++ " OFFSET " ++ itoa qb.offset else fc

/-- `proto.QueryDataRequest` (the fields `QueryBuilder.Exec` fills). -/
structure QueryDataRequest where
  connectionString : String
  tableName : String
  columns : String
  condition : String
deriving DecidableEq, Repr

/-- `QueryBuilder.Exec`: no validation; builds the final condition string
and dispatches one `QueryData` request with the table name and columns
passed through as-is. -/
def QueryBuilder.Exec (qb : QueryBuilder) : ExecAction QueryDataRequest :=
  .dispatch
    { connectionString := qb.client.connectionString
      tableName := qb.tableName
      columns := qb.columns
      condition := qb.finalCondition }

/-- One comparison-setter call on a `QueryBuilder`
(`Equal` / `Greater` / `Less` / `LessEqual`). -/
inductive CompCall where
  | equal (field : String) (value : Value)
  | greater (field : String) (value : Value)
  | less (field : String) (value : Value)
  | lessEqual (field : String) (value : Value)
deriving DecidableEq, Repr

/-- The predicate fragment a comparison call contributes
(what it passes to `addCondition`). -/
def CompCall.fragment : CompCall → String
  | .equal f v => formatCondition f "=" v
  | .greater f v => formatCondition f ">" v
  | .less f v => formatCondition f "<" v
  | .lessEqual f v => formatCondition f "<=" v

/-- Apply one comparison-setter call to a `QueryBuilder`. -/
def QueryBuilder.applyCall (qb : QueryBuilder) : CompCall → QueryBuilder
  | .equal f v => qb.Equal f v
  | .greater f v => qb.Greater f v
  | .less f v => qb.Less f v
  | .lessEqual f v => qb.LessEqual f v

/-- Apply a sequence of comparison-setter calls, in order. -/
def QueryBuilder.applyCalls (qb : QueryBuilder) (cs : List CompCall) : QueryBuilder :=
  cs.foldl QueryBuilder.applyCall qb

/-- One comparison-setter call on an `UpdateRecordBuilder`
(`Equal` / `Greater` / `Less`). -/
inductive UpdCall where
  | equal (field : String) (value : Value)
  | greater (field : String) (value : Value)
  | less (field : String) (value : Value)
deriving DecidableEq, Repr

/-- The predicate fragment an `UpdateRecordBuilder` comparison call
contributes. -/
def UpdCall.fragment : UpdCall → String
  | .equal f v => formatCondition f "=" v
  | .greater f v => formatCondition f ">" v
  | .less f v => formatCondition f "<" v

/-- Apply one comparison-setter call to an `UpdateRecordBuilder`. -/
def UpdateRecordBuilder.applyCall (urb : UpdateRecordBuilder) :
    UpdCall → UpdateRecordBuilder
  | .equal f v => urb.Equal f v
  | .greater f v => urb.Greater f v
  | .less f v => urb.Less f v

/-- Apply a sequence of comparison-setter calls, in order. -/
def UpdateRecordBuilder.applyCalls (urb : UpdateRecordBuilder)
    (cs : List UpdCall) : UpdateRecordBuilder :=
  cs.foldl UpdateRecordBuilder.applyCall urb

end GoDB

namespace GoDB

example : itoa 5 = "5" := by decide
example : itoa (-42) = "-42" := by decide
example : itoa 0 = "0" := by decide
example : escapeQuotes "O'Brien" = "O''Brien" := by decide
example : formatCondition "name" "=" (.str "Gaming") = "name = 'Gaming'" := by decide
example : formatCondition "id" "=" (.int 5) = "id = 5" := by decide

lemma length_pos_ne_empty {s : String} (h : 0 < s.length) : s ≠ "" := by
  intro heq
  subst heq
  simp at h

lemma ne_empty_length_pos {s : String} (h : s ≠ "") : 0 < s.length := by
  cases s with
  | mk data =>
    cases data with
    | nil => exact absurd (by decide) h
    | cons c cs => simp [String.length]

lemma append_ne_empty_right (s t : String) (h : t ≠ "") : s ++ t ≠ "" := by
  apply length_pos_ne_empty
  have := ne_empty_length_pos h
  simp only [String.length_append]
  omega

lemma append_ne_empty_left (s t : String) (h : s ≠ "") : s ++ t ≠ "" := by
  apply length_pos_ne_empty
  have := ne_empty_length_pos h
  simp only [String.length_append]
  omega

lemma formatCondition_ne_empty (f op : String) (v : Value) :
    formatCondition f op v ≠ "" := by
  cases v with
  | str s =>
    show f ++ " " ++ op ++ " '" ++ escapeQuotes s ++ "'" ≠ ""
    exact append_ne_empty_right _ _ (by decide)
  | int n =>
    show f ++ " " ++ op ++ " " ++ itoa n ≠ ""
    exact append_ne_empty_left _ _ (append_ne_empty_right _ _ (by decide))

lemma addCondition_empty_left (c : String) : addCondition "" c = c := by
  simp [addCondition]

lemma addCondition_of_ne (s c : String) (h : s ≠ "") :
    addCondition s c = s ++ " AND " ++ c := by
  simp [addCondition, h]

lemma addCondition_ne_empty (s c : String) (hc : c ≠ "") :
    addCondition s c ≠ "" := by
  by_cases hs : s = ""
  · subst hs
    simpa [addCondition] using hc
  · rw [addCondition_of_ne s c hs]
    exact append_ne_empty_right _ _ hc

lemma foldl_addCondition_of_ne (l : List String) :
    ∀ s, s ≠ "" → l.foldl addCondition s =
      l.foldl (fun acc y => acc ++ " AND " ++ y) s := by
  induction l with
  | nil => intro s _; rfl
  | cons x xs ih =>
    intro s hs
    simp only [List.foldl_cons]
    rw [addCondition_of_ne s x hs]
    exact ih _ (by
      apply append_ne_empty_left
      apply append_ne_empty_right
      decide)

lemma joinSep_cons_foldl (sep s : String) (l : List String) :
    joinSep sep (s :: l) = l.foldl (fun acc y => acc ++ sep ++ y) s := rfl

lemma foldl_addCondition_joinSep (l : List String) (s : String) (hs : s ≠ "") :
    l.foldl addCondition s = joinSep " AND " (s :: l) := by
  rw [joinSep_cons_foldl]
  exact foldl_addCondition_of_ne l s hs

lemma condition_applyCall (qb : QueryBuilder) (c : CompCall) :
    (qb.applyCall c).condition = addCondition qb.condition c.fragment := by
  cases c <;> rfl

lemma condition_applyCalls (cs : List CompCall) :
    ∀ qb : QueryBuilder, (qb.applyCalls cs).condition =
      (cs.map CompCall.fragment).foldl addCondition qb.condition := by
  induction cs with
  | nil => intro qb; rfl
  | cons c cs ih =>
    intro qb
    show ((qb.applyCall c).applyCalls cs).condition = _
    rw [ih, condition_applyCall]
    rfl

lemma condition_applyCallU (urb : UpdateRecordBuilder) (c : UpdCall) :
    (urb.applyCall c).condition = addCondition urb.condition c.fragment := by
  cases c <;> rfl

lemma condition_applyCallsU (cs : List UpdCall) :
    ∀ urb : UpdateRecordBuilder, (urb.applyCalls cs).condition =
      (cs.map UpdCall.fragment).foldl addCondition urb.condition := by
  induction cs with
  | nil => intro urb; rfl
  | cons c cs ih =>
    intro urb
    show ((urb.applyCall c).applyCalls cs).condition = _
    rw [ih, condition_applyCallU]
    rfl

lemma fragment_ne_empty (c : CompCall) : c.fragment ≠ "" := by
  cases c <;> exact formatCondition_ne_empty _ _ _

lemma fragmentU_ne_empty (c : UpdCall) : c.fragment ≠ "" := by
  cases c <;> exact formatCondition_ne_empty _ _ _

lemma and_id_gt_append (x : String) :
    " AND " ++ ("id > " ++ x) = " AND id > " ++ x := by
  rw [← String.append_assoc]
  have h : (" AND " ++ "id > " : String) = " AND id > " := by decide
  rw [h]

lemma finalCondition_eq (qb : QueryBuilder) :
    qb.finalCondition =
      qb.condition
        ++ (if qb.cursor ≠ "" then
              (if qb.condition ≠ "" then " AND " else "") ++ "id > " ++ qb.cursor
            else "")
        ++ (if qb.orderBy ≠ "" then " ORDER BY " ++ qb.orderBy else "")
        ++ (if qb.limit > 0 then " LIMIT " ++ itoa qb.limit else "")
        ++ (if qb.offset > 0 then " OFFSET " ++ itoa qb.offset else "") := by
  unfold QueryBuilder.finalCondition
  by_cases hc : qb.condition = "" <;> by_cases hk : qb.cursor = "" <;>
    by_cases ho : qb.orderBy = "" <;> by_cases hl : 0 < qb.limit <;>
    by_cases hf : 0 < qb.offset <;>
    simp [hc, hk, ho, hl, hf, joinSep, String.append_assoc, and_id_gt_append]

lemma undouble_cons_ne (c : Char) (h : c ≠ '\'') (rest : List Char) :
    undouble (c :: rest) = c :: undouble rest := by
  cases rest with
  | nil => simp [undouble]
  | cons d rest' =>
    by_cases hd : d = '\''
    · subst hd
      simp [undouble, h]
    · simp [undouble, h]

lemma undouble_escape (cs : List Char) :
    undouble (cs.flatMap fun c => if c = '\'' then ['\'', '\''] else [c]) = cs := by
  induction cs with
  | nil => rfl
  | cons c cs ih =>
    by_cases h : c = '\''
    · subst h
      show undouble ('\'' :: '\'' ::
          (cs.flatMap fun c => if c = '\'' then ['\'', '\''] else [c])) = '\'' :: cs
      rw [undouble, ih]
    · simp only [List.flatMap_cons, if_neg h, List.singleton_append]
      rw [undouble_cons_ne c h, ih]

lemma unescape_escape (v : String) : unescapeQuotes (escapeQuotes v) = v := by
  show String.mk (undouble (String.mk _).data) = v
  rw [show (String.mk (v.data.flatMap fun c =>
        if c = '\'' then ['\'', '\''] else [c])).data =
      v.data.flatMap fun c => if c = '\'' then ['\'', '\''] else [c] from rfl]
  rw [undouble_escape]

lemma charOfNat_digit_ne_quote {d : Nat} (h : d < 10) :
    Char.ofNat (48 + d) ≠ '\'' := by
  interval_cases d <;> decide

lemma natToDigitsAux_no_quote (fuel : Nat) :
    ∀ n, ((natToDigitsAux fuel n).all fun c => c != '\'') = true := by
  induction fuel with
  | zero => intro n; rfl
  | succ fuel ih =>
    intro n
    unfold natToDigitsAux
    by_cases h : n < 10
    · simp only [if_pos h, List.all_cons, List.all_nil, Bool.and_true,
        bne_iff_ne, ne_eq]
      exact charOfNat_digit_ne_quote h
    · simp only [if_neg h, List.all_append, ih, Bool.true_and, List.all_cons,
        List.all_nil, Bool.and_true, bne_iff_ne, ne_eq]
      exact charOfNat_digit_ne_quote (Nat.mod_lt _ (by omega))

lemma itoa_no_quote (i : Int) :
    ((itoa i).data.all fun c => c != '\'') = true := by
  unfold itoa
  by_cases h : i < 0
  · rw [if_pos h]
    show ((("-" : String).data ++ natToDigits i.natAbs).all fun c => c != '\'') = true
    simp only [List.all_append, natToDigits, natToDigitsAux_no_quote, Bool.and_true]
    decide
  · rw [if_neg h]
    exact natToDigitsAux_no_quote _ _

lemma foldl_append_record (rs : List (List (String × String))) :
    ∀ init : List Record,
      rs.foldl (fun acc rec => acc ++ [⟨rec⟩]) init = init ++ rs.map Record.mk := by
  induction rs with
  | nil => intro init; simp
  | cons r rs ih =>
    intro init
    simp [List.foldl_cons, ih]

lemma foldl_addCondition_empty_start (l : List String) (hl : ∀ x ∈ l, x ≠ "") :
    l.foldl addCondition "" = joinSep " AND " l := by
  cases l with
  | nil => rfl
  | cons x xs =>
    simp only [List.foldl_cons, addCondition_empty_left]
    exact foldl_addCondition_joinSep xs x (hl x (by simp))

lemma map_fragment_ne_empty (cs : List CompCall) :
    ∀ x ∈ cs.map CompCall.fragment, x ≠ "" := by
  intro x hx
  rcases List.mem_map.mp hx with ⟨c, _, rfl⟩
  exact fragment_ne_empty c

lemma map_fragmentU_ne_empty (cs : List UpdCall) :
    ∀ x ∈ cs.map UpdCall.fragment, x ≠ "" := by
  intro x hx
  rcases List.mem_map.mp hx with ⟨c, _, rfl⟩
  exact fragmentU_ne_empty c

/-- Claim C1: for every `QueryBuilder` configuration, the condition string
dispatched by `Exec` is assembled in the fixed clause order: accumulated
conditions, then (for a non-empty cursor) the AND-joined synthetic fragment
`id > <cursor>` with the cursor inserted verbatim, then ` ORDER BY ` plus
the order clause, then ` LIMIT ` plus the limit when positive, then
` OFFSET ` plus the offset when positive. -/
theorem queryExec_clause_order (qb : QueryBuilder) :
    qb.Exec = .dispatch
      { connectionString := qb.client.connectionString
        tableName := qb.tableName
        columns := qb.columns
        condition :=
          qb.condition
            ++ (if qb.cursor ≠ "" then
                  (if qb.condition ≠ "" then " AND " else "") ++ "id > " ++ qb.cursor
                else "")
            ++ (if qb.orderBy ≠ "" then " ORDER BY " ++ qb.orderBy else "")
            ++ (if qb.limit > 0 then " LIMIT " ++ itoa qb.limit else "")
            ++ (if qb.offset > 0 then " OFFSET " ++ itoa qb.offset else "") } := by
  unfold QueryBuilder.Exec
  rw [finalCondition_eq]

/-- Claim C2: starting from an empty accumulated condition, a sequence of
comparison-setter calls (on `QueryBuilder` and on `UpdateRecordBuilder`)
accumulates exactly the `" AND "`-join of the formatted fragments in call
order: empty for zero calls, the lone fragment for one call, and the
in-order join otherwise; in particular `Equal("id",5)` then
`Greater("price",100)` yields `id = 5 AND price > 100`. -/
theorem predicateAccumulator_and_join (qb : QueryBuilder)
    (urb : UpdateRecordBuilder) (cs : List CompCall) (us : List UpdCall)
    (hq : qb.condition = "") (hu : urb.condition = "") :
    (qb.applyCalls cs).condition = joinSep " AND " (cs.map CompCall.fragment)
    ∧ (urb.applyCalls us).condition = joinSep " AND " (us.map UpdCall.fragment)
    ∧ ((((GoDBClient.mk "").UpdateRecord.Table "t").Equal "id"
          (.int 5)).Greater "price" (.int 100)).condition
        = "id = 5 AND price > 100" := by
  refine ⟨?_, ?_, by decide⟩
  · rw [condition_applyCalls, hq]
    exact foldl_addCondition_empty_start _ (map_fragment_ne_empty cs)
  · rw [condition_applyCallsU, hu]
    exact foldl_addCondition_empty_start _ (map_fragmentU_ne_empty us)

/-- Witness for C2 at a concrete builder and call list. -/
theorem predicateAccumulator_and_join_witness :
    ((GoDBClient.mk "").Query.applyCalls
      [CompCall.equal "a" (.int 1), CompCall.greater "b" (.int 2)]).condition
      = "a = 1 AND b > 2" := by
  have h := (predicateAccumulator_and_join (GoDBClient.mk "").Query
    (GoDBClient.mk "").UpdateRecord
    [CompCall.equal "a" (.int 1), CompCall.greater "b" (.int 2)] []
    (by decide) (by decide)).1
  exact h.trans (by decide)

/-- Claim C3: for a text value, `formatCondition` doubles every single
quote and wraps the escaped value in single quotes; naive unescaping
recovers the original text; `O'Brien` under `=` on `name` renders
`name = 'O''Brien'`. -/
theorem formatCondition_text_escaping (f op v : String) :
    formatCondition f op (.str v) = f ++ " " ++ op ++ " '" ++ escapeQuotes v ++ "'"
    ∧ unescapeQuotes (escapeQuotes v) = v
    ∧ formatCondition "name" "=" (.str "O'Brien") = "name = 'O''Brien'" :=
  ⟨rfl, unescape_escape v, by decide⟩

/-- Claim C4: on both `QueryBuilder` and `UpdateRecordBuilder`,
`Condition raw` overwrites the free-form base condition (it never
AND-joins onto prior state), while the comparison setters append with
`" AND "`; mixing `Condition` with subsequent comparison calls puts the
free-form string first, the fragments AND-appended after it in order. -/
theorem condition_overwrite_asymmetry (qb : QueryBuilder)
    (urb : UpdateRecordBuilder) (raw : String) (cs : List CompCall)
    (us : List UpdCall) (h : raw ≠ "") :
    (qb.Condition raw).condition = raw
    ∧ (urb.Condition raw).condition = raw
    ∧ ((qb.Condition raw).applyCalls cs).condition =
        joinSep " AND " (raw :: cs.map CompCall.fragment)
    ∧ ((urb.Condition raw).applyCalls us).condition =
        joinSep " AND " (raw :: us.map UpdCall.fragment) := by
  refine ⟨rfl, rfl, ?_, ?_⟩
  · rw [condition_applyCalls]
    exact foldl_addCondition_joinSep _ raw h
  · rw [condition_applyCallsU]
    exact foldl_addCondition_joinSep _ raw h

/-- Witness for C4: a free-form condition followed by one `Equal` call. -/
theorem condition_overwrite_asymmetry_witness :
    (((GoDBClient.mk "").Query.Condition "age >= 18").applyCalls
      [CompCall.equal "name" (.str "Bob")]).condition
      = "age >= 18 AND name = 'Bob'" := by
  have h := (condition_overwrite_asymmetry (GoDBClient.mk "").Query
    (GoDBClient.mk "").UpdateRecord "age >= 18"
    [CompCall.equal "name" (.str "Bob")] [] (by decide)).2.2.1
  exact h.trans (by decide)

/-- Claim C5: `InsertBuilder.Exec` stops with a validation error, making
no transport call, exactly when the table name is empty or the record map
(as supplied by the last `Values` call) is empty; otherwise it dispatches
exactly one `InsertRecord` request carrying that record map. -/
theorem insertExec_validation_and_dispatch (ib : InsertBuilder)
    (r : List (String × String)) :
    (ib.Values r).Exec =
      (if ib.tableName = "" then .validationError "table name is required"
       else if r = [] then .validationError "no record provided"
       else .dispatch
        { tableName := ib.tableName
          record := r
          connectionString := ib.client.connectionString })
    ∧ (ib.Values r).Exec.transportCalls =
      (if ib.tableName = "" ∨ r = [] then []
       else [{ tableName := ib.tableName
               record := r
               connectionString := ib.client.connectionString }])
    ∧ ((ib.Values r).Exec.isValidationError = true ↔
        (ib.tableName = "" ∨ r = [])) := by
  unfold InsertBuilder.Exec InsertBuilder.Values
  refine ⟨?_, ?_, ?_⟩ <;>
    by_cases h1 : ib.tableName = "" <;> by_cases h2 : r = [] <;>
      simp [h1, h2, ExecAction.transportCalls, ExecAction.isValidationError]

/-- Claim C6: a limit of 0 renders no LIMIT clause and an offset of 0
renders no OFFSET clause (0 is "unset"); the chain
`Query().Table("products").Equal("name","Gaming").Limit(10).Offset(0)`
renders exactly `name = 'Gaming' LIMIT 10`. -/
theorem queryExec_zero_unset (qb : QueryBuilder) :
    (qb.limit = 0 → qb.finalCondition =
      qb.condition
        ++ (if qb.cursor ≠ "" then
              (if qb.condition ≠ "" then " AND " else "") ++ "id > " ++ qb.cursor
            else "")
        ++ (if qb.orderBy ≠ "" then " ORDER BY " ++ qb.orderBy else "")
        ++ (if qb.offset > 0 then " OFFSET " ++ itoa qb.offset else ""))
    ∧ (qb.offset = 0 → qb.finalCondition =
      qb.condition
        ++ (if qb.cursor ≠ "" then
              (if qb.condition ≠ "" then " AND " else "") ++ "id > " ++ qb.cursor
            else "")
        ++ (if qb.orderBy ≠ "" then " ORDER BY " ++ qb.orderBy else "")
        ++ (if qb.limit > 0 then " LIMIT " ++ itoa qb.limit else ""))
    ∧ (((((GoDBClient.mk "").Query.Table "products").Equal "name"
          (.str "Gaming")).Limit 10).Offset 0).finalCondition
        = "name = 'Gaming' LIMIT 10" := by
  refine ⟨?_, ?_, by decide⟩
  · intro h
    rw [finalCondition_eq, h]
    simp [String.append_assoc]
  · intro h
    rw [finalCondition_eq, h]
    simp [String.append_assoc]

/-- Witness for C6: with limit 0 the LIMIT clause is absent. -/
theorem queryExec_zero_unset_witness :
    ((((GoDBClient.mk "").Query.Condition "a = 1").Limit 0).Offset 7).finalCondition
      = "a = 1 OFFSET 7" := by
  have h := (queryExec_zero_unset
    ((((GoDBClient.mk "").Query.Condition "a = 1").Limit 0).Offset 7)).1 (by decide)
  exact h.trans (by decide)

/-- Claim C7: for a non-text (integer) value, `formatCondition` renders
the value in canonical decimal form with no quote characters, producing
`field operator value`. -/
theorem formatCondition_nontext_unquoted (f op : String) (n : Int) :
    formatCondition f op (.int n) = f ++ " " ++ op ++ " " ++ itoa n
    ∧ ((itoa n).data.all fun c => c != '\'') = true :=
  ⟨rfl, itoa_no_quote n⟩

/-- Claim C8: `QueryBuilder.Exec` performs no required-field validation:
for every configuration (empty table name and columns included) it never
yields a local validation error, passes table name and columns through to
the request as-is, and performs exactly one transport call. -/
theorem queryExec_no_validation (qb : QueryBuilder) :
    qb.Exec.isValidationError = false
    ∧ qb.Exec.transportCalls =
        [{ connectionString := qb.client.connectionString
           tableName := qb.tableName
           columns := qb.columns
           condition := qb.finalCondition }] :=
  ⟨rfl, rfl⟩

/-- Claim C9: `InsertMultipleBuilder.Records` accumulates — each call
appends its record maps, in order, after all previously supplied records —
whereas `InsertBuilder.Values` replaces the whole record map on each call
(last-write-wins). -/
theorem records_append_values_overwrite (imb : InsertMultipleBuilder)
    (rs1 rs2 : List (List (String × String))) (ib : InsertBuilder)
    (r1 r2 : List (String × String)) :
    ((imb.Records rs1).Records rs2).records =
      imb.records ++ rs1.map Record.mk ++ rs2.map Record.mk
    ∧ (imb.Records rs1).records = imb.records ++ rs1.map Record.mk
    ∧ ((ib.Values r1).Values r2).record = r2 := by
  refine ⟨?_, ?_, rfl⟩
  · show (rs2.foldl (fun acc rec => acc ++ [⟨rec⟩])
      (rs1.foldl (fun acc rec => acc ++ [⟨rec⟩]) imb.records)) = _
    rw [foldl_append_record, foldl_append_record]
  · exact foldl_append_record rs1 imb.records

/-- Claim C10: a strictly negative limit (respectively offset) behaves
exactly like 0: the guards test strictly-greater-than-zero, so no LIMIT
(respectively OFFSET) clause is rendered. -/
theorem query_negative_limit_offset_unset (qb : QueryBuilder) :
    (qb.limit < 0 → qb.finalCondition =
      qb.condition
        ++ (if qb.cursor ≠ "" then
              (if qb.condition ≠ "" then " AND " else "") ++ "id > " ++ qb.cursor
            else "")
        ++ (if qb.orderBy ≠ "" then " ORDER BY " ++ qb.orderBy else "")
        ++ (if qb.offset > 0 then " OFFSET " ++ itoa qb.offset else ""))
    ∧ (qb.offset < 0 → qb.finalCondition =
      qb.condition
        ++ (if qb.cursor ≠ "" then
              (if qb.condition ≠ "" then " AND " else "") ++ "id > " ++ qb.cursor
            else "")
        ++ (if qb.orderBy ≠ "" then " ORDER BY " ++ qb.orderBy else "")
        ++ (if qb.limit > 0 then " LIMIT " ++ itoa qb.limit else "")) := by
  constructor
  · intro h
    rw [finalCondition_eq]
    have hl : ¬ qb.limit > 0 := by omega
    simp [hl, String.append_assoc]
  · intro h
    rw [finalCondition_eq]
    have hf : ¬ qb.offset > 0 := by omega
    simp [hf, String.append_assoc]

/-- Witness for C10: limit -3 and offset -7 render neither clause. -/
theorem query_negative_limit_offset_unset_witness :
    ((((GoDBClient.mk "").Query.Condition "a = 1").Limit (-3)).Offset (-7)).finalCondition
      = "a = 1" := by
  have h := (query_negative_limit_offset_unset
    ((((GoDBClient.mk "").Query.Condition "a = 1").Limit (-3)).Offset (-7))).1
    (by decide)
  exact h.trans (by decide)

end GoDB
